import Mathlib

/-!
Shallow embedding of the scoring engine of the Travel Safety Analyzer
(src/app.py) and proofs of the specification claims about it.

Numbers: Python floats for temperatures, wind speeds and UV indices are
modelled as rationals; the integer beach score is modelled as an integer.
Python strings are Lean strings; `x in s` (substring test) is `strContains`,
`s.lower()` is `String.toLower`.
-/

namespace TravelSafety

/-- Boolean test: the first list is a prefix of the second. -/
def listPfx : List Char → List Char → Bool
  | [], _ => true
  | _ :: _, [] => false
  | a :: as, b :: bs => a == b && listPfx as bs

/-- Boolean test: `needle` occurs as a contiguous sublist of the haystack. -/
def listSub (needle : List Char) : List Char → Bool
  | [] => listPfx needle []
  | c :: cs => listPfx needle (c :: cs) || listSub needle cs

/-- Python `pat in s` on strings: substring containment. -/
def strContains (s pat : String) : Bool :=
  listSub pat.toList s.toList

/-- ASCII lowercase of one character, as Python `str.lower` acts on the
ASCII letters occurring in this program's strings. -/
def charLower (c : Char) : Char :=
  if c.toNat < 65 ∨ 90 < c.toNat then c else Char.ofNat (c.toNat + 32)

/-- Python `s.lower()`. -/
def strLower (s : String) : String :=
  String.mk (s.data.map charLower)

/-- `uv_risk_level` from src/app.py: UV risk band of a UV index. -/
def uv_risk_level (uv_index : ℚ) : String :=
  if uv_index ≤ 2 then "Low"
  else if uv_index ≤ 5 then "Moderate"
  else if uv_index ≤ 7 then "High"
  else if uv_index ≤ 10 then "Very High"
  else "Extreme"

/-- The `weather_codes` dictionary of `translate_weather_code`. -/
def weather_codes : List (ℤ × String) :=
  [(0, "Clear sky"), (1, "Mainly clear"), (2, "Partly cloudy"),
   (3, "Overcast"), (45, "Fog"), (51, "Light drizzle"),
   (61, "Light rain"), (80, "Rain showers"), (95, "Thunderstorm")]

/-- `translate_weather_code` from src/app.py: dictionary lookup with the
default string for unknown codes. -/
def translate_weather_code (code : ℤ) : String :=
  (weather_codes.lookup code).getD "Unknown weather conditions"

/-- The weather dictionary fields consumed by the scoring functions. -/
structure Weather where
  temp : ℚ
  humidity : ℚ
  wind : ℚ
  uv_index : ℚ
  conditions : String
  deriving Repr

/-- The raw rating of `get_safety_rating` before clamping and rounding:
base 8.0 followed by the three sequential deduction chains of src/app.py. -/
def get_safety_raw (weather : Weather) : ℚ :=
  let rating : ℚ := 8.0
  let rating :=
    if strContains weather.conditions "Thunderstorm" then rating - 4
    else if strContains weather.conditions "Rain" then rating - 2
    else if strContains weather.conditions "Fog" then rating - 1
    else rating
  let rating :=
    if weather.temp > 35 then rating - 2
    else if weather.temp < 10 then rating - 1
    else rating
  let rating :=
    if weather.wind > 30 then rating - 3
    else if weather.wind > 20 then rating - 1
    else rating
  let rating :=
    if weather.uv_index > 8 then rating - 1
    else rating
  rating

/-- Python banker rounding of a rational to the nearest integer. -/
def roundHalfEven (q : ℚ) : ℤ :=
  if q - ⌊q⌋ < 1/2 then ⌊q⌋
  else if q - ⌊q⌋ > 1/2 then ⌊q⌋ + 1
  else if ⌊q⌋ % 2 = 0 then ⌊q⌋ else ⌊q⌋ + 1

/-- Python `round(q, 1)`: round to one decimal place, ties to even. -/
def round1 (q : ℚ) : ℚ :=
  (roundHalfEven (10 * q) : ℚ) / 10

/-- `get_safety_rating` from src/app.py: raw rating, rounded to one
decimal place, then clamped to [0, 10] (`max(0, min(10, round(rating, 1)))`). -/
def get_safety_rating (weather : Weather) : ℚ :=
  max 0 (min 10 (round1 (get_safety_raw weather)))

/-- The safety label attached to a rating in `display_location_report`
(and `display_beach_report`) of src/app.py. -/
def safety_label (rating : ℚ) : String :=
  if rating ≥ 8 then "Very Safe"
  else if rating ≥ 6 then "Safe"
  else if rating ≥ 4 then "Caution Advised"
  else "Not Recommended"

/-- `estimate_flight_distance` from src/app.py, parametrised over the
geocoder (`get_coordinates`, an HTTP call returning a latitude, longitude
and formatted address, any of which may be the None sentinel) and the
`great_circle(..).km` distance function of geopy. -/
def estimate_flight_distance
    (get_coordinates : String → Option ℚ × Option ℚ × Option String)
    (great_circle_km : ℚ × ℚ → ℚ × ℚ → ℚ)
    (origin destination : String) : ℚ :=
  let (orig_lat, orig_lng, _) := get_coordinates origin
  let (dest_lat, dest_lng, _) := get_coordinates destination
  match orig_lat, orig_lng, dest_lat, dest_lng with
  | some a, some b, some c, some d => great_circle_km (a, b) (c, d)
  | _, _, _, _ => 0

/-- The five fixed base items of `generate_beach_packing_list`. -/
def base_items : List String :=
  ["🧴 SPF 50+ Sunscreen", "🩱 Swimwear", "🏖️ Beach towel",
   "🕶️ UV-protection sunglasses", "💧 Reusable water bottle"]

/-- `generate_beach_packing_list` from src/app.py: the base list followed
by the four conditional appends, in source order. -/
def generate_beach_packing_list (weather : Weather) (uv_index : ℚ) :
    List String :=
  base_items
    ++ (if uv_index > 8 then ["🧢 UV-protective hat/clothing"] else [])
    ++ (if weather.temp > 30 then ["🌬️ Portable fan/misting bottle"] else [])
    ++ (if weather.wind > 15 then ["🧥 Light windbreaker"] else [])
    ++ (if strContains (strLower weather.conditions) "rain"
        then ["☔ Waterproof bag/cover"] else [])

/-- The raw beach score of `get_beach_safety_score` before the final clamp:
base 8, the UV chain, the hazard chain, the lifeguard bonus. -/
def get_beach_raw (uv_index : ℚ) (hazards : List String)
    (has_lifeguard : Bool) : ℤ :=
  let score : ℤ := 8
  let score :=
    if uv_index > 8 then score - 2
    else if uv_index > 5 then score - 1
    else score
  let score :=
    if hazards.any (fun h => strContains (strLower h) "tsunami") then score - 3
    else if hazards.any (fun h => strContains (strLower h) "cyclone") then score - 2
    else score
  let score := if has_lifeguard then score + 1 else score
  score

/-- `get_beach_safety_score` from src/app.py: the raw score clamped by
`max(1, min(10, score))`. -/
def get_beach_safety_score (uv_index : ℚ) (hazards : List String)
    (has_lifeguard : Bool) : ℤ :=
  max 1 (min 10 (get_beach_raw uv_index hazards has_lifeguard))

/-- One tide extreme returned by the Storm Glass API: an (aware) timestamp,
a type string, and an optional height. Timestamps are modelled as integers
(datetimes are totally ordered). -/
structure Tide where
  time : ℤ
  type : String
  height : Option ℚ
  deriving Repr, DecidableEq

/-- A selected next-high or next-low entry of `get_tide_data`. -/
structure TideSel where
  time : ℤ
  height : Option ℚ
  deriving Repr, DecidableEq

/-- The selection loop of `get_tide_data` in src/app.py: walk the events in
order, skip events with `tide_time < now_utc`, and keep for each of the two
types the entry with the strictly smallest timestamp seen so far. -/
def tideLoop (now : ℤ) :
    List Tide → Option TideSel → Option TideSel →
    Option TideSel × Option TideSel
  | [], next_high, next_low => (next_high, next_low)
  | t :: ts, next_high, next_low =>
    if t.time < now then tideLoop now ts next_high next_low
    else if t.type = "high" then
      let nh :=
        match next_high with
        | none => some ⟨t.time, t.height⟩
        | some h => if t.time < h.time then some ⟨t.time, t.height⟩ else some h
      tideLoop now ts nh next_low
    else if t.type = "low" then
      let nl :=
        match next_low with
        | none => some ⟨t.time, t.height⟩
        | some l => if t.time < l.time then some ⟨t.time, t.height⟩ else some l
      tideLoop now ts next_high nl
    else tideLoop now ts next_high next_low

/-- The pure core of `get_tide_data` from src/app.py: given the query time
and the parsed event list, the `{next_high, next_low}` pair. -/
def get_tide_data (now : ℤ) (events : List Tide) :
    Option TideSel × Option TideSel :=
  tideLoop now events none none

/-! Spec-side definitions, written from the specification text, used to
state the refinement claims about the deduction model. -/

/-- Spec model: condition deduction, an else-chain on the condition text
(case-sensitive substring). -/
def condDeduction (conditions : String) : ℤ :=
  if strContains conditions "Thunderstorm" then 4
  else if strContains conditions "Rain" then 2
  else if strContains conditions "Fog" then 1
  else 0

/-- Spec model: temperature deduction. -/
def tempDeduction (temp : ℚ) : ℤ :=
  if temp > 35 then 2 else if temp < 10 then 1 else 0

/-- Spec model: wind deduction. -/
def windDeduction (wind : ℚ) : ℤ :=
  if wind > 30 then 3 else if wind > 20 then 1 else 0

/-- Spec model: UV deduction. -/
def uvDeduction (uv_index : ℚ) : ℤ :=
  if uv_index > 8 then 1 else 0

/-- Spec model: beach UV deduction (mutually exclusive else-chain). -/
def beachUvDeduction (uv_index : ℚ) : ℤ :=
  if uv_index > 8 then 2 else if uv_index > 5 then 1 else 0

/-- Spec model: beach hazard deduction, tsunami checked first. -/
def beachHazardDeduction (hazards : List String) : ℤ :=
  if hazards.any (fun h => strContains (strLower h) "tsunami") then 3
  else if hazards.any (fun h => strContains (strLower h) "cyclone") then 2
  else 0

/-- Spec model: lifeguard bonus. -/
def lifeguardBonus (has_lifeguard : Bool) : ℤ :=
  if has_lifeguard then 1 else 0

/-- The tide events of type "high" that are not skipped by the loop
(timestamp not strictly before the query time). -/
def highCands (now : ℤ) (events : List Tide) : List Tide :=
  events.filter (fun t => !decide (t.time < now) && (t.type == "high"))

/-- The tide events of type "low" that are not skipped by the loop. -/
def lowCands (now : ℤ) (events : List Tide) : List Tide :=
  events.filter (fun t => !decide (t.time < now) && (t.type == "low"))

/-- One selection step of the tide loop: keep the entry with the strictly
smaller timestamp (first seen wins ties). -/
def selMerge (acc : Option TideSel) (t : Tide) : Option TideSel :=
  match acc with
  | none => some ⟨t.time, t.height⟩
  | some h => if t.time < h.time then some ⟨t.time, t.height⟩ else some h

/-! Helper lemmas shared by the claim theorems. -/

/-- The raw safety rating is the base 8 minus the sum of the four
independent category deductions. -/
theorem raw_eq_deductions (w : Weather) :
    get_safety_raw w =
      8 - ((condDeduction w.conditions + tempDeduction w.temp +
            windDeduction w.wind + uvDeduction w.uv_index : ℤ) : ℚ) := by
  unfold get_safety_raw condDeduction tempDeduction windDeduction uvDeduction
  split_ifs <;> push_cast <;> norm_num

/-- Rounding to one decimal place is the identity on integers. -/
theorem round1_intCast (n : ℤ) : round1 ((n : ℤ) : ℚ) = (n : ℚ) := by
  unfold round1 roundHalfEven
  have h10 : (10 : ℚ) * (n : ℚ) = ((10 * n : ℤ) : ℚ) := by push_cast; ring
  rw [h10, Int.floor_intCast]
  norm_num

/-- The total deduction of the general safety rating is between 0 and 10. -/
theorem total_deduction_bounds (w : Weather) :
    0 ≤ condDeduction w.conditions + tempDeduction w.temp +
        windDeduction w.wind + uvDeduction w.uv_index ∧
    condDeduction w.conditions + tempDeduction w.temp +
        windDeduction w.wind + uvDeduction w.uv_index ≤ 10 := by
  unfold condDeduction tempDeduction windDeduction uvDeduction
  split_ifs <;> omega

/-- Evaluation helper: when the raw rating is an integer already inside
[0, 10], the returned rating is that integer. -/
theorem get_safety_rating_of_raw (w : Weather) (n : ℤ)
    (h : get_safety_raw w = (n : ℚ)) (h0 : 0 ≤ n) (h10 : n ≤ 10) :
    get_safety_rating w = (n : ℚ) := by
  have hn10 : ((n : ℤ) : ℚ) ≤ 10 := by exact_mod_cast h10
  have hn0 : (0 : ℚ) ≤ ((n : ℤ) : ℚ) := by exact_mod_cast h0
  unfold get_safety_rating
  rw [h, round1_intCast, min_eq_right hn10, max_eq_right hn0]

/-! Claim theorems. -/

/-- C1: `get_safety_rating` follows the deterministic linear-deduction
model: its raw score before clamping and rounding is 8 minus the sum of
the condition, temperature, wind and UV deductions, each computed by the
else-chain of the spec, and the returned rating is the clamped rounding of
that raw score — for every weather input. -/
theorem get_safety_raw_linear_model (w : Weather) :
    get_safety_raw w =
      8 - ((condDeduction w.conditions + tempDeduction w.temp +
            windDeduction w.wind + uvDeduction w.uv_index : ℤ) : ℚ) ∧
    get_safety_rating w = max 0 (min 10 (round1 (get_safety_raw w))) :=
  ⟨raw_eq_deductions w, rfl⟩

/-- C6: `uv_risk_level` maps its input by inclusive upper-bound bands
(≤2 Low, ≤5 Moderate, ≤7 High, ≤10 Very High, else Extreme), and in
particular sends 2 to Low, 2.01 to Moderate, and 11 to Extreme. -/
theorem uv_risk_level_bands (uv : ℚ) :
    (uv ≤ 2 → uv_risk_level uv = "Low") ∧
    (2 < uv → uv ≤ 5 → uv_risk_level uv = "Moderate") ∧
    (5 < uv → uv ≤ 7 → uv_risk_level uv = "High") ∧
    (7 < uv → uv ≤ 10 → uv_risk_level uv = "Very High") ∧
    (10 < uv → uv_risk_level uv = "Extreme") ∧
    uv_risk_level 2 = "Low" ∧ uv_risk_level (201/100) = "Moderate" ∧
    uv_risk_level 11 = "Extreme" := by
  refine ⟨?_, ?_, ?_, ?_, ?_, by norm_num [uv_risk_level],
    by norm_num [uv_risk_level], by norm_num [uv_risk_level]⟩ <;>
    intros <;> unfold uv_risk_level <;> split_ifs <;>
      first | rfl | linarith

/-- C6 witness: the Moderate band at the concrete input 3. -/
theorem uv_risk_level_bands_witness : uv_risk_level 3 = "Moderate" :=
  (uv_risk_level_bands 3).2.1 (by norm_num) (by norm_num)

/-- C8: `translate_weather_code` is the fixed lookup on exactly the codes
0, 1, 2, 3, 45, 51, 61, 80, 95 (with 95 ↦ "Thunderstorm") and maps every
other integer code to "Unknown weather conditions". -/
theorem translate_weather_code_lookup :
    translate_weather_code 95 = "Thunderstorm" ∧
    (∀ p ∈ weather_codes, translate_weather_code p.1 = p.2) ∧
    (∀ code : ℤ, code ∉ [(0 : ℤ), 1, 2, 3, 45, 51, 61, 80, 95] →
      translate_weather_code code = "Unknown weather conditions") := by
  refine ⟨by decide, by decide, ?_⟩
  intro code h
  simp only [List.mem_cons, List.not_mem_nil, or_false, not_or] at h
  obtain ⟨h0, h1, h2, h3, h45, h51, h61, h80, h95⟩ := h
  have e : ∀ k : ℤ, code ≠ k → (code == k) = false :=
    fun k hk => beq_eq_false_iff_ne.mpr hk
  simp [translate_weather_code, weather_codes, List.lookup,
    e 0 h0, e 1 h1, e 2 h2, e 3 h3, e 45 h45,
    e 51 h51, e 61 h61, e 80 h80, e 95 h95]

/-- C8 witness: the unknown code 999 maps to the default string. -/
theorem translate_weather_code_lookup_witness :
    translate_weather_code 999 = "Unknown weather conditions" :=
  translate_weather_code_lookup.2.2 999 (by decide)

/-- C9: `estimate_flight_distance` returns 0 whenever either endpoint
fails to resolve to coordinates (any of the four latitude/longitude
components is the None sentinel), for every geocoder and distance
function. -/
theorem estimate_flight_distance_zero
    (get_coordinates : String → Option ℚ × Option ℚ × Option String)
    (great_circle_km : ℚ × ℚ → ℚ × ℚ → ℚ) (origin destination : String)
    (h : (get_coordinates origin).1 = none ∨
         (get_coordinates origin).2.1 = none ∨
         (get_coordinates destination).1 = none ∨
         (get_coordinates destination).2.1 = none) :
    estimate_flight_distance get_coordinates great_circle_km
      origin destination = 0 := by
  unfold estimate_flight_distance
  rcases hg : get_coordinates origin with ⟨olat, olng, oaddr⟩
  rcases hd : get_coordinates destination with ⟨dlat, dlng, daddr⟩
  rw [hg, hd] at h
  rcases olat with _ | a <;> rcases olng with _ | b <;>
    rcases dlat with _ | c <;> rcases dlng with _ | d <;> simp_all

/-- C9 witness: a geocoder that resolves nothing gives distance 0. -/
theorem estimate_flight_distance_zero_witness :
    estimate_flight_distance (fun _ => (none, none, none))
      (fun _ _ => 1) "Goa" "Puri" = 0 :=
  estimate_flight_distance_zero (fun _ => (none, none, none))
    (fun _ _ => 1) "Goa" "Puri" (Or.inl rfl)

/-- C2: for every weather input, the rating lies in [0, 10], equals the
raw score clamped to [0, 10] then rounded to one decimal place, and is a
multiple of 0.1. -/
theorem get_safety_rating_bounds (w : Weather) :
    0 ≤ get_safety_rating w ∧ get_safety_rating w ≤ 10 ∧
    get_safety_rating w = round1 (max 0 (min 10 (get_safety_raw w))) ∧
    ∃ k : ℤ, get_safety_rating w = (k : ℚ) / 10 := by
  obtain ⟨hd0, hd10⟩ := total_deduction_bounds w
  have hraw : get_safety_raw w =
      ((8 - (condDeduction w.conditions + tempDeduction w.temp +
             windDeduction w.wind + uvDeduction w.uv_index) : ℤ) : ℚ) := by
    rw [raw_eq_deductions w]; push_cast; ring
  set d := condDeduction w.conditions + tempDeduction w.temp +
      windDeduction w.wind + uvDeduction w.uv_index with hdef
  have hcast : max 0 (min 10 (((8 - d : ℤ) : ℚ))) =
      ((max 0 (min 10 (8 - d)) : ℤ) : ℚ) := by push_cast; ring_nf
  have hr : get_safety_rating w = ((max 0 (min 10 (8 - d)) : ℤ) : ℚ) := by
    unfold get_safety_rating
    rw [hraw, round1_intCast, hcast]
  refine ⟨?_, ?_, ?_, ⟨10 * max 0 (min 10 (8 - d)), ?_⟩⟩
  · rw [hr]; exact_mod_cast le_max_left 0 _
  · rw [hr]; exact_mod_cast max_le (by norm_num) (min_le_left _ _)
  · rw [hr, hraw, hcast, round1_intCast]
  · rw [hr]; push_cast; ring

/-- C3: the safety label of `display_location_report` uses inclusive
lower-bound thresholds 8 / 6 / 4, and the two concrete spec inputs give
rating 4 with label Caution Advised and rating 8 with label Very Safe. -/
theorem safety_label_thresholds (r : ℚ) :
    (8 ≤ r → safety_label r = "Very Safe") ∧
    (6 ≤ r → r < 8 → safety_label r = "Safe") ∧
    (4 ≤ r → r < 6 → safety_label r = "Caution Advised") ∧
    (r < 4 → safety_label r = "Not Recommended") ∧
    get_safety_rating ⟨20, 65, 5, 3, "Thunderstorm"⟩ = 4 ∧
    safety_label (get_safety_rating ⟨20, 65, 5, 3, "Thunderstorm"⟩) =
      "Caution Advised" ∧
    get_safety_rating ⟨20, 65, 5, 3, "Clear"⟩ = 8 ∧
    safety_label (get_safety_rating ⟨20, 65, 5, 3, "Clear"⟩) =
      "Very Safe" := by
  have hT : strContains "Thunderstorm" "Thunderstorm" = true := by decide
  have hC1 : strContains "Clear" "Thunderstorm" = false := by decide
  have hC2 : strContains "Clear" "Rain" = false := by decide
  have hC3 : strContains "Clear" "Fog" = false := by decide
  have r1 : get_safety_raw ⟨20, 65, 5, 3, "Thunderstorm"⟩ = ((4 : ℤ) : ℚ) := by
    unfold get_safety_raw; norm_num [hT]
  have r2 : get_safety_raw ⟨20, 65, 5, 3, "Clear"⟩ = ((8 : ℤ) : ℚ) := by
    unfold get_safety_raw; norm_num [hC1, hC2, hC3]
  have e1 : get_safety_rating ⟨20, 65, 5, 3, "Thunderstorm"⟩ = 4 := by
    have h := get_safety_rating_of_raw _ 4 r1 (by norm_num) (by norm_num)
    exact_mod_cast h
  have e2 : get_safety_rating ⟨20, 65, 5, 3, "Clear"⟩ = 8 := by
    have h := get_safety_rating_of_raw _ 8 r2 (by norm_num) (by norm_num)
    exact_mod_cast h
  refine ⟨?_, ?_, ?_, ?_, e1, ?_, e2, ?_⟩
  · intro h; unfold safety_label; rw [if_pos h]
  · intro h1 h2; unfold safety_label; split_ifs <;> first | rfl | linarith
  · intro h1 h2; unfold safety_label; split_ifs <;> first | rfl | linarith
  · intro h; unfold safety_label; split_ifs <;> first | rfl | linarith
  · rw [e1]; unfold safety_label; norm_num
  · rw [e2]; unfold safety_label; norm_num

/-- C3 witness: the Safe band at the concrete rating 7. -/
theorem safety_label_thresholds_witness : safety_label 7 = "Safe" :=
  (safety_label_thresholds 7).2.1 (by norm_num) (by norm_num)

/-- C4: `get_beach_safety_score` is base 8 minus the UV deduction and the
hazard deduction plus the lifeguard bonus, clamped to [1, 10]; the spec
example (uv 9, hazard "Tsunami warning", no lifeguard) scores 3. -/
theorem get_beach_safety_score_model (uv_index : ℚ)
    (hazards : List String) (has_lifeguard : Bool) :
    get_beach_safety_score uv_index hazards has_lifeguard =
      max 1 (min 10 (8 - beachUvDeduction uv_index
        - beachHazardDeduction hazards + lifeguardBonus has_lifeguard)) ∧
    get_beach_safety_score 9 ["Tsunami warning"] false = 3 := by
  constructor
  · unfold get_beach_safety_score get_beach_raw beachUvDeduction
      beachHazardDeduction lifeguardBonus
    split_ifs <;> decide
  · have ht : ["Tsunami warning"].any
        (fun h => strContains (strLower h) "tsunami") = true := by decide
    unfold get_beach_safety_score get_beach_raw
    norm_num [ht, max_def, min_def]

/-- C10: the beach safety score always lies in [3, 9]; neither the lower
clamp at 1 nor the upper clamp at 10 is ever reached, so the score equals
the raw unclamped value. -/
theorem get_beach_safety_score_range (uv_index : ℚ)
    (hazards : List String) (has_lifeguard : Bool) :
    3 ≤ get_beach_safety_score uv_index hazards has_lifeguard ∧
    get_beach_safety_score uv_index hazards has_lifeguard ≤ 9 ∧
    get_beach_safety_score uv_index hazards has_lifeguard =
      get_beach_raw uv_index hazards has_lifeguard := by
  unfold get_beach_safety_score get_beach_raw
  split_ifs <;> decide

/-- C7: the beach packing list is the fixed 5-item base list followed by
the four independent conditional appends in source order; its length is
between 5 and 9, and the spec example (temp 31, wind 20, uv 9, "Light
rain") yields all nine items. -/
theorem generate_beach_packing_list_shape (w : Weather) (uv_index : ℚ) :
    (generate_beach_packing_list w uv_index).take 5 = base_items ∧
    base_items.length = 5 ∧
    generate_beach_packing_list w uv_index =
      base_items
        ++ (if uv_index > 8 then ["🧢 UV-protective hat/clothing"] else [])
        ++ (if w.temp > 30 then ["🌬️ Portable fan/misting bottle"] else [])
        ++ (if w.wind > 15 then ["🧥 Light windbreaker"] else [])
        ++ (if strContains (strLower w.conditions) "rain"
            then ["☔ Waterproof bag/cover"] else []) ∧
    5 ≤ (generate_beach_packing_list w uv_index).length ∧
    (generate_beach_packing_list w uv_index).length ≤ 9 ∧
    generate_beach_packing_list ⟨31, 65, 20, 9, "Light rain"⟩ 9 =
      ["🧴 SPF 50+ Sunscreen", "🩱 Swimwear", "🏖️ Beach towel",
       "🕶️ UV-protection sunglasses", "💧 Reusable water bottle",
       "🧢 UV-protective hat/clothing", "🌬️ Portable fan/misting bottle",
       "🧥 Light windbreaker", "☔ Waterproof bag/cover"] := by
  have hr : strContains (strLower "Light rain") "rain" = true := by decide
  refine ⟨?_, rfl, rfl, ?_, ?_, ?_⟩
  · unfold generate_beach_packing_list base_items; split_ifs <;> decide
  · unfold generate_beach_packing_list base_items; split_ifs <;> decide
  · unfold generate_beach_packing_list base_items; split_ifs <;> decide
  · unfold generate_beach_packing_list base_items
    norm_num [hr]

/-- The first component of the tide loop is a fold of the selection step
over the non-skipped high-tide events. -/
theorem tideLoop_fst (now : ℤ) :
    ∀ (ts : List Tide) (nh nl : Option TideSel),
      (tideLoop now ts nh nl).1 = (highCands now ts).foldl selMerge nh := by
  intro ts
  induction ts with
  | nil => intro nh nl; rfl
  | cons t ts ih =>
    intro nh nl
    by_cases h1 : t.time < now
    · simp [tideLoop, h1, highCands, List.filter_cons, ih, lowCands]
    · by_cases h2 : t.type = "high"
      · cases nh <;>
          simp [tideLoop, h1, h2, highCands, List.filter_cons, ih,
            lowCands, selMerge]
      · by_cases h3 : t.type = "low"
        · simp [tideLoop, h1, h2, h3, highCands, List.filter_cons, ih,
            lowCands]
        · simp [tideLoop, h1, h2, h3, highCands, List.filter_cons, ih,
            lowCands]

/-- The second component of the tide loop is a fold of the selection step
over the non-skipped low-tide events. -/
theorem tideLoop_snd (now : ℤ) :
    ∀ (ts : List Tide) (nh nl : Option TideSel),
      (tideLoop now ts nh nl).2 = (lowCands now ts).foldl selMerge nl := by
  intro ts
  induction ts with
  | nil => intro nh nl; rfl
  | cons t ts ih =>
    intro nh nl
    by_cases h1 : t.time < now
    · simp [tideLoop, h1, lowCands, List.filter_cons, ih]
    · by_cases h2 : t.type = "high"
      · simp [tideLoop, h1, h2, lowCands, List.filter_cons, ih]
      · by_cases h3 : t.type = "low"
        · cases nl <;>
            simp [tideLoop, h1, h2, h3, lowCands, List.filter_cons, ih,
              selMerge]
        · simp [tideLoop, h1, h2, h3, lowCands, List.filter_cons, ih]

/-- The selection step always yields an entry, no later than the new
event, no later than the old entry, and drawn from one of the two. -/
theorem selMerge_isSome (acc : Option TideSel) (t : Tide) :
    ∃ b, selMerge acc t = some b ∧ b.time ≤ t.time ∧
      (∀ a, acc = some a → b.time ≤ a.time) ∧
      (acc = some b ∨ (b.time = t.time ∧ b.height = t.height)) := by
  cases acc with
  | none =>
    exact ⟨⟨t.time, t.height⟩, rfl, le_refl _, by simp, Or.inr ⟨rfl, rfl⟩⟩
  | some a =>
    by_cases h : t.time < a.time
    · refine ⟨⟨t.time, t.height⟩, by simp [selMerge, h], le_refl _, ?_,
        Or.inr ⟨rfl, rfl⟩⟩
      intro a' ha'
      injection ha' with ha'
      subst ha'
      exact le_of_lt h
    · refine ⟨a, by simp [selMerge, h], not_lt.mp h, ?_, Or.inl rfl⟩
      intro a' ha'
      injection ha' with ha'
      subst ha'
      exact le_refl _

/-- A fold of the selection step yields `none` only from `none` over the
empty list. -/
theorem foldl_selMerge_eq_none :
    ∀ (cs : List Tide) (acc : Option TideSel),
      cs.foldl selMerge acc = none → acc = none ∧ cs = [] := by
  intro cs
  induction cs with
  | nil => intro acc h; exact ⟨h, rfl⟩
  | cons c cs ih =>
    intro acc h
    rw [List.foldl_cons] at h
    obtain ⟨b, hb, -, -, -⟩ := selMerge_isSome acc c
    rw [hb] at h
    exact absurd (ih _ h).1 (by simp)

/-- A fold of the selection step yields the entry with the smallest
timestamp among the accumulator and the listed events, drawn from one of
them (first seen wins ties). -/
theorem foldl_selMerge_eq_some :
    ∀ (cs : List Tide) (acc : Option TideSel) (h : TideSel),
      cs.foldl selMerge acc = some h →
      (acc = some h ∨ ∃ t ∈ cs, h.time = t.time ∧ h.height = t.height) ∧
      (∀ t ∈ cs, h.time ≤ t.time) ∧
      (∀ a, acc = some a → h.time ≤ a.time) := by
  intro cs
  induction cs with
  | nil =>
    intro acc h hh
    rw [List.foldl_nil] at hh
    subst hh
    refine ⟨Or.inl rfl, by simp, ?_⟩
    intro a ha
    injection ha with ha
    subst ha
    exact le_refl _
  | cons c cs ih =>
    intro acc h hh
    rw [List.foldl_cons] at hh
    obtain ⟨b, hb, hbt, hbacc, hbsrc⟩ := selMerge_isSome acc c
    rw [hb] at hh
    obtain ⟨hmem, hmin, hacc⟩ := ih (some b) h hh
    have hhb : h.time ≤ b.time := hacc b rfl
    refine ⟨?_, ?_, ?_⟩
    · rcases hmem with hmb | ⟨t, ht, hte⟩
      · injection hmb with hmb
        subst hmb
        rcases hbsrc with hacc' | hc
        · exact Or.inl hacc'
        · exact Or.inr ⟨c, List.mem_cons_self c cs, hc.1, hc.2⟩
      · exact Or.inr ⟨t, List.mem_cons_of_mem c ht, hte⟩
    · intro t ht
      rcases List.mem_cons.mp ht with rfl | ht'
      · exact le_trans hhb hbt
      · exact hmin t ht'
    · intro a ha
      exact le_trans hhb (hbacc a ha)

/-- Membership in the non-skipped high-tide events. -/
theorem mem_highCands (now : ℤ) (events : List Tide) (t : Tide) :
    t ∈ highCands now events ↔
      t ∈ events ∧ now ≤ t.time ∧ t.type = "high" := by
  simp [highCands, List.mem_filter, not_lt, and_assoc]

/-- Membership in the non-skipped low-tide events. -/
theorem mem_lowCands (now : ℤ) (events : List Tide) (t : Tide) :
    t ∈ lowCands now events ↔
      t ∈ events ∧ now ≤ t.time ∧ t.type = "low" := by
  simp [lowCands, List.mem_filter, not_lt, and_assoc]

/-- C5 counterexample: with query time 0 and one high-tide event at
exactly time 0 — not strictly later than the query time — the event is
still selected as the next high, so the selected event need not be
strictly in the future and events at the query time are not excluded. -/
theorem get_tide_data_boundary :
    get_tide_data 0 [⟨0, "high", none⟩] = (some ⟨0, none⟩, none) ∧
    ¬ ((0 : ℤ) < 0) := by
  exact ⟨by decide, by decide⟩

/-- C5 (amended): the tide result holds at most one next-high and one
next-low, both at or after the query time; events strictly earlier than
the query time are excluded, and among the remaining events the earliest
high and the earliest low are selected independently. -/
theorem get_tide_data_earliest (now : ℤ) (events : List Tide) :
    (∀ h, (get_tide_data now events).1 = some h →
      now ≤ h.time ∧
      (∃ t ∈ events, now ≤ t.time ∧ t.type = "high" ∧
        h.time = t.time ∧ h.height = t.height) ∧
      (∀ t ∈ events, now ≤ t.time → t.type = "high" → h.time ≤ t.time)) ∧
    ((get_tide_data now events).1 = none →
      ∀ t ∈ events, t.type = "high" → t.time < now) ∧
    (∀ l, (get_tide_data now events).2 = some l →
      now ≤ l.time ∧
      (∃ t ∈ events, now ≤ t.time ∧ t.type = "low" ∧
        l.time = t.time ∧ l.height = t.height) ∧
      (∀ t ∈ events, now ≤ t.time → t.type = "low" → l.time ≤ t.time)) ∧
    ((get_tide_data now events).2 = none →
      ∀ t ∈ events, t.type = "low" → t.time < now) := by
  have hfst : (get_tide_data now events).1 =
      (highCands now events).foldl selMerge none :=
    tideLoop_fst now events none none
  have hsnd : (get_tide_data now events).2 =
      (lowCands now events).foldl selMerge none :=
    tideLoop_snd now events none none
  refine ⟨?_, ?_, ?_, ?_⟩
  · intro h hh
    rw [hfst] at hh
    obtain ⟨hmem, hmin, -⟩ := foldl_selMerge_eq_some _ _ _ hh
    rcases hmem with habs | ⟨t, ht, hte, hth⟩
    · cases habs
    · obtain ⟨htmem, htnow, httype⟩ := (mem_highCands now events t).mp ht
      refine ⟨hte ▸ htnow, ⟨t, htmem, htnow, httype, hte, hth⟩, ?_⟩
      intro u hu hunow hutype
      exact hmin u ((mem_highCands now events u).mpr ⟨hu, hunow, hutype⟩)
  · intro hnone t ht httype
    rw [hfst] at hnone
    obtain ⟨-, hnil⟩ := foldl_selMerge_eq_none _ _ hnone
    by_contra hge
    have hmem : t ∈ highCands now events :=
      (mem_highCands now events t).mpr ⟨ht, not_lt.mp hge, httype⟩
    rw [hnil] at hmem
    cases hmem
  · intro l hl
    rw [hsnd] at hl
    obtain ⟨hmem, hmin, -⟩ := foldl_selMerge_eq_some _ _ _ hl
    rcases hmem with habs | ⟨t, ht, hte, hth⟩
    · cases habs
    · obtain ⟨htmem, htnow, httype⟩ := (mem_lowCands now events t).mp ht
      refine ⟨hte ▸ htnow, ⟨t, htmem, htnow, httype, hte, hth⟩, ?_⟩
      intro u hu hunow hutype
      exact hmin u ((mem_lowCands now events u).mpr ⟨hu, hunow, hutype⟩)
  · intro hnone t ht httype
    rw [hsnd] at hnone
    obtain ⟨-, hnil⟩ := foldl_selMerge_eq_none _ _ hnone
    by_contra hge
    have hmem : t ∈ lowCands now events :=
      (mem_lowCands now events t).mpr ⟨ht, not_lt.mp hge, httype⟩
    rw [hnil] at hmem
    cases hmem

/-- C5 witness: for query time 0 and a single high tide at time 5, the
selected next high is at or after the query time. -/
theorem get_tide_data_earliest_witness :
    (0 : ℤ) ≤ (TideSel.mk 5 none).time :=
  ((get_tide_data_earliest 0 [⟨5, "high", none⟩]).1 ⟨5, none⟩ (by decide)).1

end TravelSafety
